import Mathlib

/-!
Shallow embedding of `lib/Sema/TypeCheckDecl.cpp` (declaration type checking):
the type model consumed by the checker, declaration nodes, the attribute
validator, the variable-name pattern matcher, the value-declaration validator,
and the top-level declaration dispatcher.  External services (type resolution,
expression checking) are modelled as black-box function parameters; the
diagnostic sink is modelled as an accumulated list of diagnostics.
-/

namespace Swift

/-- The type model consumed by the checker: unresolved placeholder
(`DependentType`), error sentinel (`ErrorType`), opaque named base types,
tuple types (`TupleType`, ordered fields), function types (`FunctionType`,
input and output), and sum types (`OneOfType`; each element is represented by
its argument/payload type, mirroring `OneOfElementDecl::ArgumentType`). -/
inductive Ty where
  | dependent : Ty
  | error : Ty
  | base : Nat → Ty
  | tuple : List Ty → Ty
  | fn : Ty → Ty → Ty
  | oneof : List Ty → Ty

/-- Embeds `Type::is<DependentType>()`. -/
def Ty.isDependent : Ty → Bool
  | .dependent => true
  | _ => false

/-- A variable name specifier (`DeclVarName`): either a simple name, or a
parenthesized ordered sequence of nested name specifiers. -/
inductive DeclVarName where
  | simple : Nat → DeclVarName
  | compound : List DeclVarName → DeclVarName

/-- Embeds `DeclVarName::isSimple()`. -/
def DeclVarName.isSimple : DeclVarName → Bool
  | .simple _ => true
  | .compound _ => false

/-- The kinds of `ValueDecl` relevant to `isa<VarDecl>` / `isa<FuncDecl>`
tests (`other` stands for any further `ValueDecl` subclass). -/
inductive ValueDeclKind where
  | var | func | other
  deriving DecidableEq

/-- An initializer expression: an opaque identity plus the type the
expression-checking service has given it (`Expr::getType()`). -/
structure Expr where
  eid : Nat
  ty : Ty

/-- The diagnostics emitted by this pass (`diag::...` kinds with their
arguments). -/
inductive Diag where
  | invalid_arg_count_for_operator
  | invalid_infix_left_input
  | infix_left_not_an_operator
  | infix_left_invalid_on_decls
  | binops_infix_left
  | while_converting_var_init
  | name_matches_nontuple (t : Ty)
  | varname_element_count_mismatch (t : Ty) (numFields : Nat) (numElements : Nat)
  | invalid_index_in_element_ref (name : Nat) (ownerTy : Ty)

/-- A `ValueDecl`: declaration kind, its type, optional initializer, the
operator flag (`ValueDecl::isOperator()`), the infix attribute
(`DeclAttributes::Infix`, `none` models an invalid/absent `InfixData`, so
`isInfix() = infixData.isSome`), and the nested name specifier of a
`VarDecl` (`VarDecl::getNestedName()`, meaningful only for `kind = var`). -/
structure ValueDecl where
  kind : ValueDeclKind
  type : Ty
  init : Option Expr
  isOperator : Bool
  infixData : Option Nat
  nestedName : Option DeclVarName

/-- The external services consumed as black boxes: `TypeChecker::validateType`
(returns true on failure and the declaration's resolved-in-place type),
`TypeChecker::typeCheckExpression` (returns true on failure and the
possibly-rewritten initializer expression), and the `validateType` overload
applied to a `TypeAliasDecl`'s alias type. -/
structure Services where
  validateType : ValueDecl → Bool × Ty
  typeCheckExpression : Expr → Option Ty → Bool × Expr
  resolveAliasType : Ty → Ty

end Swift

namespace Swift

/-- From `DeclChecker::validateAttributes`: the lexical argument count — the field
count of the function type's tuple input, or `-1` ("unknown") otherwise. -/
def numArguments (ty : Ty) : Int :=
  match ty with
  | .fn input _ =>
    match input with
    | .tuple fields => (fields.length : Int)
    | _ => -1
  | _ => -1

/-- Embeds `DeclChecker::validateAttributes`: checks that the func/var declaration
attributes are ok, clearing the infix data on each violation; returns the
normalized declaration and the emitted diagnostics. -/
def validateAttributes (vd : ValueDecl) : ValueDecl × List Diag :=
  let n := numArguments vd.type
  if vd.isOperator && (n == 0 || n > 2) then
    ({ vd with infixData := none }, [.invalid_arg_count_for_operator])
  else
    let r2 : ValueDecl × List Diag :=
      if vd.infixData.isSome && !(n == 2) then
        ({ vd with infixData := none }, [Diag.invalid_infix_left_input])
      else (vd, [])
    let r3 : ValueDecl × List Diag :=
      if r2.1.infixData.isSome && !r2.1.isOperator then
        ({ r2.1 with infixData := none }, [Diag.infix_left_not_an_operator])
      else (r2.1, [])
    let r4 : ValueDecl × List Diag :=
      if r3.1.infixData.isSome && !(r3.1.kind == .var) && !(r3.1.kind == .func) then
        ({ r3.1 with infixData := none }, [Diag.infix_left_invalid_on_decls])
      else (r3.1, [])
    let ds5 : List Diag :=
      if r4.1.isOperator && !r4.1.infixData.isSome && !(n == 1) then
        [Diag.binops_infix_left]
      else []
    (r4.1, r2.2 ++ r3.2 ++ r4.2 ++ ds5)

end Swift

namespace Swift

mutual

/-- The part of `DeclChecker::validateVarName` after the single-element-oneof
unwrap: the type must be a tuple whose field count equals the element count of
the (non-simple) name specifier, and then the elements are checked pairwise. -/
def checkTupleShape (ty : Ty) (elems : List DeclVarName) : Bool × List Diag :=
  match ty with
  | .tuple fields =>
    if fields.length ≠ elems.length then
      (true, [.varname_element_count_mismatch (.tuple fields) fields.length elems.length])
    else
      validateVarNameList fields elems
  | _ => (true, [.name_matches_nontuple ty])

/-- Embeds `DeclChecker::validateVarName`: checks a name specifier against a type;
returns `true` (plus the emitted diagnostics) on mismatch. -/
def validateVarName (ty : Ty) (name : DeclVarName) : Bool × List Diag :=
  match name with
  | .simple _ => (false, [])
  | .compound elems =>
    if ty.isDependent then (false, [])
    else
      match ty with
      | .oneof [payload] => checkTupleShape payload elems
      | _ => checkTupleShape ty elems

/-- The recursion loop of `DeclChecker::validateVarName`: check each tuple
field against the corresponding name element, returning `true` at the first
mismatching pair. -/
def validateVarNameList (fields : List Ty) (elems : List DeclVarName) : Bool × List Diag :=
  match fields, elems with
  | f :: fs, e :: es =>
    let r := validateVarName f e
    if r.1 then (true, r.2)
    else
      let rest := validateVarNameList fs es
      (rest.1, r.2 ++ rest.2)
  | _, _ => (false, [])

end

end Swift

namespace Swift

/-- Embeds `DeclChecker::visitValueDecl`: resolve the declared type (clearing the
initializer and failing if resolution fails), type-check the initializer
against the expected destination type, and validate the attributes; returns
(failure flag, updated declaration, emitted diagnostics). -/
def visitValueDecl (svc : Services) (vd : ValueDecl) : Bool × ValueDecl × List Diag :=
  let r := svc.validateType vd
  if r.1 then
    (true, { vd with type := r.2, init := none }, [])
  else
    let vd1 : ValueDecl := { vd with type := r.2 }
    match vd1.init with
    | none =>
      if vd1.type.isDependent then (true, vd1, [])
      else
        let ra := validateAttributes vd1
        (false, ra.1, ra.2)
    | some e =>
      let destTy : Option Ty := if vd1.type.isDependent then none else some vd1.type
      let r2 := svc.typeCheckExpression e destTy
      if !r2.1 then
        let vd2 : ValueDecl := { vd1 with init := some r2.2, type := r2.2.ty }
        let ra := validateAttributes vd2
        (false, ra.1, ra.2)
      else
        let vd2 : ValueDecl := { vd1 with init := some r2.2 }
        let ds0 : List Diag :=
          if vd2.kind = .var then [Diag.while_converting_var_init] else []
        let ra := validateAttributes vd2
        (false, ra.1, ds0 ++ ra.2)

/-- Embeds `DeclChecker::visitVarDecl`: type check the `ValueDecl` part; on success,
if the `VarDecl` has a name specifier, verify it against the declaration's
type, detaching the specifier on mismatch. -/
def visitVarDecl (svc : Services) (vd : ValueDecl) : ValueDecl × List Diag :=
  let r := visitValueDecl svc vd
  if r.1 then (r.2.1, r.2.2)
  else
    match r.2.1.nestedName with
    | some name =>
      let m := validateVarName r.2.1.type name
      if m.1 then ({ r.2.1 with nestedName := none }, r.2.2 ++ m.2)
      else (r.2.1, r.2.2 ++ m.2)
    | none => (r.2.1, r.2.2)

/-- An `ElementRefDecl`: its name, the owning `VarDecl`'s type (`ERD->VD`),
the stored access path, and its own (lazily resolved) type. -/
structure ElementRefDecl where
  name : Nat
  ownerType : Ty
  accessPath : List Nat
  type : Ty

/-- Modelled from the spec: `ElementRefDecl::getTypeForPath` is declared in
the AST headers, not in this source file.  Per the spec it walks the stored
access path through the owning variable's type one structural index at a
time — a tuple field index or a sum-case payload selection — returning the
reached type, or failure when the path does not correspond to a valid
position. -/
def getTypeForPath (ty : Ty) (path : List Nat) : Option Ty :=
  match path with
  | [] => some ty
  | i :: rest =>
    match ty with
    | .tuple fields =>
      match fields.get? i with
      | some f => getTypeForPath f rest
      | none => none
    | .oneof cases =>
      match cases.get? i with
      | some payload => getTypeForPath payload rest
      | none => none
    | _ => none

/-- Embeds `DeclChecker::visitElementRefDecl`: if the type is already resolved (not
dependent) do nothing; otherwise resolve the access path through the owner's
type, overwriting the node's type with the result, or with the error sentinel
(plus a diagnostic) on failure. -/
def visitElementRefDecl (erd : ElementRefDecl) : ElementRefDecl × List Diag :=
  if !erd.type.isDependent then (erd, [])
  else
    match getTypeForPath erd.ownerType erd.accessPath with
    | some t => ({ erd with type := t }, [])
    | none =>
      ({ erd with type := .error },
       [.invalid_index_in_element_ref erd.name erd.ownerType])

/-- A statement-level declaration fed to the checker (`Decl`), by kind:
`ImportDecl`, `TypeAliasDecl` (carrying its alias type), `VarDecl` and
`FuncDecl` (carrying their `ValueDecl` data), `OneOfElementDecl`, `ArgDecl`,
and `ElementRefDecl`. -/
inductive Decl where
  | importD : Decl
  | typeAliasD : Ty → Decl
  | varD : ValueDecl → Decl
  | funcD : ValueDecl → Decl
  | oneOfElementD : Decl
  | argD : Decl
  | elementRefD : ElementRefDecl → Decl

/-- The outcome of checking one declaration: the updated declaration with the
emitted diagnostics, or the fatal `llvm_unreachable` abort. -/
inductive CheckOutcome where
  | ok : Decl → List Diag → CheckOutcome
  | fatal : CheckOutcome

/-- Embeds `TypeChecker::typeCheckDecl` via `DeclChecker::visit`: dispatch on the
declaration kind.  Imports and oneof elements need no checking; a type alias
has its alias type resolved; var/func run the value-declaration checking;
an `ArgDecl` hits `llvm_unreachable`; an `ElementRefDecl` is resolved
lazily. -/
def typeCheckDecl (svc : Services) (d : Decl) : CheckOutcome :=
  match d with
  | .importD => .ok .importD []
  | .typeAliasD t => .ok (.typeAliasD (svc.resolveAliasType t)) []
  | .varD vd =>
    let r := visitVarDecl svc vd
    .ok (.varD r.1) r.2
  | .funcD vd =>
    let r := visitValueDecl svc vd
    .ok (.funcD r.2.1) r.2.2
  | .oneOfElementD => .ok .oneOfElementD []
  | .argD => .fatal
  | .elementRefD erd =>
    let r := visitElementRefDecl erd
    .ok (.elementRefD r.1) r.2

end Swift


namespace Swift

/-- Counterexample declaration for claim C1: a func with infix data present,
not marked as an operator, whose type takes one lexical argument. -/
def c1vd : ValueDecl :=
  { kind := .func, type := .fn (.tuple [.base 0]) (.base 1), init := none,
    isOperator := false, infixData := some 5, nestedName := none }

/-- Witness declaration for claim C2: a var marked as an operator with a
two-argument function type and infix data present. -/
def c2vd : ValueDecl :=
  { kind := .var, type := .fn (.tuple [.base 0, .base 1]) (.base 2),
    init := none, isOperator := true, infixData := some 7, nestedName := none }

/-- Witness declaration for claims C3 and C4: a var with an initializer and a
one-element compound name specifier. -/
def c3vd : ValueDecl :=
  { kind := .var, type := .tuple [.base 0], init := some ⟨0, .base 0⟩,
    isOperator := false, infixData := none,
    nestedName := some (.compound [.simple 0]) }

/-- Witness declaration for claims C7 and C10: a var with a resolved declared
type and an initializer. -/
def c7vd : ValueDecl :=
  { kind := .var, type := .base 0, init := some ⟨0, .base 0⟩,
    isOperator := false, infixData := none, nestedName := none }

/-- A concrete service assignment where type resolution always fails. -/
def svcFailResolve : Services :=
  { validateType := fun _ => (true, .error),
    typeCheckExpression := fun e _ => (false, e),
    resolveAliasType := fun t => t }

/-- A concrete service assignment where both services succeed and leave
their arguments unchanged. -/
def svcId : Services :=
  { validateType := fun vd => (false, vd.type),
    typeCheckExpression := fun e _ => (false, e),
    resolveAliasType := fun t => t }

/-- A concrete service assignment where type resolution succeeds and
expression checking fails. -/
def svcExprFail : Services :=
  { validateType := fun vd => (false, vd.type),
    typeCheckExpression := fun e _ => (true, e),
    resolveAliasType := fun t => t }

/-- A concrete service assignment where expression checking succeeds and
rewrites the initializer expression type to `base 1`. -/
def svcExprBase1 : Services :=
  { validateType := fun vd => (false, vd.type),
    typeCheckExpression := fun e _ => (false, { e with ty := .base 1 }),
    resolveAliasType := fun t => t }

end Swift

namespace Swift

/-- Lemma: `validateAttributes` only ever rewrites the `infixData` field of the
declaration (every recovery action is `Attrs.Infix = InfixData()`). -/
theorem validateAttributes_shape (vd : ValueDecl) :
    ∃ inf ds, validateAttributes vd = ({ vd with infixData := inf }, ds) := by
  unfold validateAttributes
  dsimp only
  split
  · exact ⟨none, _, rfl⟩
  · split <;> dsimp only <;> split <;> dsimp only <;> split <;> dsimp only <;>
      exact ⟨_, _, rfl⟩

theorem validateAttributes_kind (vd : ValueDecl) :
    (validateAttributes vd).1.kind = vd.kind := by
  obtain ⟨inf, ds, h⟩ := validateAttributes_shape vd
  rw [h]

theorem validateAttributes_type (vd : ValueDecl) :
    (validateAttributes vd).1.type = vd.type := by
  obtain ⟨inf, ds, h⟩ := validateAttributes_shape vd
  rw [h]

theorem validateAttributes_init (vd : ValueDecl) :
    (validateAttributes vd).1.init = vd.init := by
  obtain ⟨inf, ds, h⟩ := validateAttributes_shape vd
  rw [h]

theorem validateAttributes_isOperator (vd : ValueDecl) :
    (validateAttributes vd).1.isOperator = vd.isOperator := by
  obtain ⟨inf, ds, h⟩ := validateAttributes_shape vd
  rw [h]

theorem validateAttributes_nestedName (vd : ValueDecl) :
    (validateAttributes vd).1.nestedName = vd.nestedName := by
  obtain ⟨inf, ds, h⟩ := validateAttributes_shape vd
  rw [h]

/-- Lemma: `validateAttributes` never emits the initializer-conversion diagnostic. -/
theorem validateAttributes_no_init_diag (vd : ValueDecl) :
    Diag.while_converting_var_init ∉ (validateAttributes vd).2 := by
  unfold validateAttributes
  dsimp only
  split
  · simp
  · split <;> dsimp only <;> split <;> dsimp only <;> split <;> dsimp only <;>
      split <;> simp

/-- Claim C2: for every ValueDecl on which the attribute validator completes,
infix data remains present afterwards only if the declaration is a var or a
func, is marked as an operator, and its lexical argument count (the field
count of its function type's tuple input) is exactly 2; any violation of
these conditions clears the infix data. -/
theorem claim_C2 (vd : ValueDecl)
    (h : ((validateAttributes vd).1.infixData).isSome = true) :
    ((validateAttributes vd).1.kind = .var ∨ (validateAttributes vd).1.kind = .func)
    ∧ (validateAttributes vd).1.isOperator = true
    ∧ numArguments (validateAttributes vd).1.type = 2 := by
  rw [validateAttributes_kind, validateAttributes_isOperator, validateAttributes_type]
  revert h
  unfold validateAttributes
  dsimp only
  split
  · intro h; simp at h
  · split <;> dsimp only <;> split <;> dsimp only <;> split <;> dsimp only <;>
      intro h <;> (simp_all; try tauto)

end Swift

namespace Swift

/-- Lemma: `visitValueDecl` never changes the nested name specifier. -/
theorem visitValueDecl_nestedName (svc : Services) (vd : ValueDecl) :
    (visitValueDecl svc vd).2.1.nestedName = vd.nestedName := by
  unfold visitValueDecl
  dsimp only
  split
  · rfl
  · split
    · split
      · rfl
      · simp [validateAttributes_nestedName]
    · split <;> split <;> simp [validateAttributes_nestedName]

/-- Lemma: the mismatch flag of the pairwise recursion loop is true exactly
when some positional pair of tuple field and name element mismatches. -/
theorem validateVarNameList_fst (fields : List Ty) (elems : List DeclVarName) :
    (validateVarNameList fields elems).1 =
      (fields.zip elems).any fun p => (validateVarName p.1 p.2).1 := by
  induction fields generalizing elems with
  | nil => simp [validateVarNameList]
  | cons f fs ih =>
    cases elems with
    | nil => simp [validateVarNameList]
    | cons e es =>
      cases hm : (validateVarName f e).1 with
      | true => simp [validateVarNameList, hm]
      | false => simp [validateVarNameList, hm, ih]

/-- Claim C1 counterexample: for a declaration with infix data present,
argument count 1 (≠ 2), and not marked as an operator, only the Rule-2
diagnostic `invalid_infix_left_input` is emitted; the Rule-3 diagnostic
`infix_left_not_an_operator` is not, contradicting the claim that both are
emitted. -/
theorem claim_C1_counterexample :
    (validateAttributes c1vd).2 = [Diag.invalid_infix_left_input]
    ∧ Diag.infix_left_not_an_operator ∉ (validateAttributes c1vd).2 := by
  refine ⟨rfl, ?_⟩
  have h : (validateAttributes c1vd).2 = [Diag.invalid_infix_left_input] := rfl
  rw [h]
  simp

/-- Claim C1 (amended): Rule 1 short-circuits the remaining rules, and each
of Rules 2-4 clears the infix data when it triggers, so a later rule whose
condition requires infix data does not also fire.  In particular, for a
declaration with infix data present, argument count ≠ 2, and not marked as an
operator, exactly the Rule-2 diagnostic is emitted (Rule 3 sees the infix
data already cleared), and the infix data is cleared. -/
theorem claim_C1_amended (vd : ValueDecl)
    (hinf : vd.infixData.isSome = true)
    (hn : numArguments vd.type ≠ 2)
    (hop : vd.isOperator = false) :
    (validateAttributes vd).2 = [Diag.invalid_infix_left_input]
    ∧ (validateAttributes vd).1.infixData = none := by
  have hn2 : (numArguments vd.type == 2) = false := by
    simp [hn]
  unfold validateAttributes
  dsimp only
  rw [hop]
  simp only [Bool.false_and, Bool.false_eq_true, if_false, hinf, hn2,
    Bool.not_false, Bool.and_self, if_true, Option.isSome_none,
    Bool.and_false, List.append_nil, List.nil_append]
  simp

/-- Witness for the amended claim C1 at the concrete declaration `c1vd`. -/
theorem claim_C1_amended_witness :
    c1vd.infixData.isSome = true
    ∧ numArguments c1vd.type ≠ 2
    ∧ c1vd.isOperator = false
    ∧ ((validateAttributes c1vd).2 = [Diag.invalid_infix_left_input]
       ∧ (validateAttributes c1vd).1.infixData = none) :=
  ⟨rfl, by decide, rfl, claim_C1_amended c1vd rfl (by decide) rfl⟩

/-- Witness for claim C2 at the concrete declaration `c2vd`, whose infix data
survives validation. -/
theorem claim_C2_witness :
    ((validateAttributes c2vd).1.infixData).isSome = true
    ∧ (((validateAttributes c2vd).1.kind = .var
        ∨ (validateAttributes c2vd).1.kind = .func)
       ∧ (validateAttributes c2vd).1.isOperator = true
       ∧ numArguments (validateAttributes c2vd).1.type = 2) :=
  ⟨rfl, claim_C2 c2vd rfl⟩

/-- Claim C3: when the type-resolution service fails on a ValueDecl, value
validation clears the initializer and returns failure with no diagnostics of
its own, and the var dispatcher then stops: the final state is exactly the
post-resolution state with the initializer cleared — the nested name
specifier, attributes and diagnostics are untouched, so neither pattern
matching nor attribute validation ran. -/
theorem claim_C3 (svc : Services) (vd : ValueDecl)
    (h : (svc.validateType vd).1 = true) :
    visitValueDecl svc vd =
      (true, { vd with type := (svc.validateType vd).2, init := none }, [])
    ∧ typeCheckDecl svc (.varD vd) =
      .ok (.varD { vd with type := (svc.validateType vd).2, init := none }) [] := by
  have h1 : visitValueDecl svc vd =
      (true, { vd with type := (svc.validateType vd).2, init := none }, []) := by
    unfold visitValueDecl
    dsimp only
    rw [h]
    simp
  have h2 : visitVarDecl svc vd =
      ({ vd with type := (svc.validateType vd).2, init := none }, []) := by
    unfold visitVarDecl
    rw [h1]
    rfl
  refine ⟨h1, ?_⟩
  simp [typeCheckDecl, h2]

/-- Witness for claim C3 at the concrete declaration `c3vd` under the
always-failing resolution service. -/
theorem claim_C3_witness :
    (svcFailResolve.validateType c3vd).1 = true
    ∧ (visitValueDecl svcFailResolve c3vd =
        (true, { c3vd with type := (svcFailResolve.validateType c3vd).2, init := none }, [])
      ∧ typeCheckDecl svcFailResolve (.varD c3vd) =
        .ok (.varD { c3vd with type := (svcFailResolve.validateType c3vd).2, init := none }) []) :=
  ⟨rfl, claim_C3 svcFailResolve c3vd rfl⟩

end Swift

namespace Swift

/-- Claim C4: for every var declaration carrying a name specifier, after
`visitVarDecl` the specifier is either left attached (when shape-compatible)
or detached on mismatch, and the declaration's type is exactly the type it
had when pattern matching began (the post-value-validation type): pattern
matching never mutates the type. -/
theorem claim_C4 (svc : Services) (vd : ValueDecl) (n : DeclVarName)
    (h : vd.nestedName = some n) :
    (visitVarDecl svc vd).1.type = (visitValueDecl svc vd).2.1.type
    ∧ ((visitValueDecl svc vd).1 = true →
        (visitVarDecl svc vd).1.nestedName = some n)
    ∧ ((visitValueDecl svc vd).1 = false →
        (visitVarDecl svc vd).1.nestedName =
          (if (validateVarName (visitValueDecl svc vd).2.1.type n).1 then none
           else some n)) := by
  have hn : (visitValueDecl svc vd).2.1.nestedName = some n := by
    rw [visitValueDecl_nestedName, h]
  unfold visitVarDecl
  dsimp only
  split
  · next hc =>
    refine ⟨rfl, fun _ => hn, fun hf => ?_⟩
    rw [hc] at hf
    cases hf
  · next hc =>
    rw [hn]
    dsimp only
    split
    · next hm =>
      exact ⟨rfl, fun ht => absurd ht hc, fun _ => rfl⟩
    · next hm =>
      exact ⟨rfl, fun ht => absurd ht hc, fun _ => hn⟩

/-- Witness for claim C4 at the concrete declaration `c3vd` under the
identity services. -/
theorem claim_C4_witness :
    c3vd.nestedName = some (DeclVarName.compound [.simple 0])
    ∧ ((visitVarDecl svcId c3vd).1.type = (visitValueDecl svcId c3vd).2.1.type
      ∧ ((visitValueDecl svcId c3vd).1 = true →
          (visitVarDecl svcId c3vd).1.nestedName =
            some (DeclVarName.compound [.simple 0]))
      ∧ ((visitValueDecl svcId c3vd).1 = false →
          (visitVarDecl svcId c3vd).1.nestedName =
            (if (validateVarName (visitValueDecl svcId c3vd).2.1.type
                  (DeclVarName.compound [.simple 0])).1 then none
             else some (DeclVarName.compound [.simple 0])))) :=
  ⟨rfl, claim_C4 svcId c3vd (DeclVarName.compound [.simple 0]) rfl⟩

/-- Claim C5: a non-simple name specifier matched against a tuple type with a
different field count yields exactly the count-mismatch diagnostic reporting
both counts, and mismatch; with equal counts the matcher recurses pairwise in
positional order — the mismatch flag is true exactly when some positional
pair mismatches, and the loop stops at the first mismatching child. -/
theorem claim_C5 (fields : List Ty) (elems : List DeclVarName) :
    (fields.length ≠ elems.length →
      validateVarName (.tuple fields) (.compound elems) =
        (true, [.varname_element_count_mismatch (.tuple fields)
                  fields.length elems.length]))
    ∧ (fields.length = elems.length →
        (validateVarName (.tuple fields) (.compound elems)).1 =
          (fields.zip elems).any fun p => (validateVarName p.1 p.2).1)
    ∧ (∀ (f : Ty) (e : DeclVarName) (fs : List Ty) (es : List DeclVarName),
        (validateVarName f e).1 = true →
          validateVarNameList (f :: fs) (e :: es) =
            (true, (validateVarName f e).2)) := by
  refine ⟨?_, ?_, ?_⟩
  · intro hne
    simp [validateVarName, checkTupleShape, Ty.isDependent, hne]
  · intro heq
    simp [validateVarName, checkTupleShape, Ty.isDependent, heq,
      validateVarNameList_fst]
  · intro f e fs es hm
    simp [validateVarNameList, hm]

/-- Witness for claim C5: a one-field tuple against a two-element specifier
(count mismatch), a one-field tuple against a one-element specifier (pairwise
recursion), and the short-circuit of the loop at a mismatching head. -/
theorem claim_C5_witness :
    validateVarName (.tuple [.base 0]) (.compound [.simple 0, .simple 1]) =
      (true, [.varname_element_count_mismatch (.tuple [.base 0]) 1 2])
    ∧ (validateVarName (.tuple [.base 0]) (.compound [.simple 0])).1 =
        (([Ty.base 0].zip [DeclVarName.simple 0]).any
          fun p => (validateVarName p.1 p.2).1)
    ∧ validateVarNameList (Ty.tuple [] :: []) (DeclVarName.compound [.simple 9] :: []) =
        (true, (validateVarName (Ty.tuple []) (DeclVarName.compound [.simple 9])).2) :=
  ⟨(claim_C5 [.base 0] [.simple 0, .simple 1]).1 (by decide),
   (claim_C5 [.base 0] [.simple 0]).2.1 rfl,
   (claim_C5 [] []).2.2 (Ty.tuple []) (DeclVarName.compound [.simple 9]) [] []
     (by simp [validateVarName, checkTupleShape, Ty.isDependent])⟩

/-- Claim C6: a non-simple name specifier matched against a single-case sum
type is checked against the single case's payload type (the unwrap happens
before the tuple comparison), and in particular a two-simple-child specifier
against a single-case sum type whose payload is a two-field tuple matches
with no mismatch and no diagnostic. -/
theorem claim_C6 :
    (∀ (payload : Ty) (elems : List DeclVarName),
      validateVarName (.oneof [payload]) (.compound elems) =
        checkTupleShape payload elems)
    ∧ ∀ (t1 t2 : Ty) (a b : Nat),
        validateVarName (.oneof [.tuple [t1, t2]])
            (.compound [.simple a, .simple b]) = (false, []) := by
  constructor
  · intro payload elems
    simp [validateVarName, Ty.isDependent]
  · intro t1 t2 a b
    simp [validateVarName, checkTupleShape, validateVarNameList, Ty.isDependent]

end Swift

namespace Swift

/-- Claim C7: when the expression-checking service fails on a ValueDecl's
initializer, the conversion diagnostic `while_converting_var_init` is
reported exactly when the declaration is a var (a func's failure is silent),
and the declaration's type is not altered in this branch (it stays the
post-resolution type). -/
theorem claim_C7 (svc : Services) (vd : ValueDecl) (e : Expr)
    (hres : (svc.validateType vd).1 = false)
    (hinit : vd.init = some e)
    (hfail : (svc.typeCheckExpression e
        (if ((svc.validateType vd).2).isDependent then none
         else some (svc.validateType vd).2)).1 = true) :
    (visitValueDecl svc vd).2.1.type = (svc.validateType vd).2
    ∧ (Diag.while_converting_var_init ∈ (visitValueDecl svc vd).2.2 ↔
        vd.kind = .var) := by
  unfold visitValueDecl
  dsimp only
  simp only [hres, Bool.false_eq_true, if_false]
  split
  · next heq => rw [hinit] at heq; cases heq
  next e' heq =>
  rw [hinit] at heq
  injection heq with he
  subst he
  simp only [hfail, Bool.not_true, Bool.false_eq_true, if_false]
  constructor
  · exact validateAttributes_type _
  · constructor
    · intro hm
      rw [List.mem_append] at hm
      rcases hm with hm | hm
      · revert hm
        split <;> simp_all
      · exact absurd hm (validateAttributes_no_init_diag _)
    · intro hk
      rw [hk]
      simp

/-- Witness for claim C7 at the concrete declaration `c7vd` under the
failing expression service. -/
theorem claim_C7_witness :
    (svcExprFail.validateType c7vd).1 = false
    ∧ c7vd.init = some ⟨0, .base 0⟩
    ∧ (svcExprFail.typeCheckExpression ⟨0, .base 0⟩
        (if ((svcExprFail.validateType c7vd).2).isDependent then none
         else some (svcExprFail.validateType c7vd).2)).1 = true
    ∧ ((visitValueDecl svcExprFail c7vd).2.1.type = (svcExprFail.validateType c7vd).2
       ∧ (Diag.while_converting_var_init ∈ (visitValueDecl svcExprFail c7vd).2.2 ↔
           c7vd.kind = .var)) :=
  ⟨rfl, rfl, rfl, claim_C7 svcExprFail c7vd ⟨0, .base 0⟩ rfl rfl rfl⟩

/-- Claim C8: checking an ElementRefDecl a second time produces the same
state — the same type (resolved type or error sentinel) — and performs no
observable work: no diagnostic is emitted and nothing is mutated. -/
theorem claim_C8 (erd : ElementRefDecl) :
    visitElementRefDecl ((visitElementRefDecl erd).1) =
      ((visitElementRefDecl erd).1, []) := by
  cases hdep : erd.type.isDependent with
  | false =>
    have h1 : visitElementRefDecl erd = (erd, []) := by
      unfold visitElementRefDecl
      rw [hdep]
      rfl
    rw [h1]
    exact h1
  | true =>
    cases hp : getTypeForPath erd.ownerType erd.accessPath with
    | none =>
      have h1 : visitElementRefDecl erd =
          ({ erd with type := .error },
           [.invalid_index_in_element_ref erd.name erd.ownerType]) := by
        unfold visitElementRefDecl
        rw [hdep, hp]
        rfl
      rw [h1]
      dsimp only
      unfold visitElementRefDecl
      rfl
    | some t =>
      have h1 : visitElementRefDecl erd = ({ erd with type := t }, []) := by
        unfold visitElementRefDecl
        rw [hdep, hp]
        rfl
      rw [h1]
      dsimp only
      cases hdt : t.isDependent with
      | false =>
        unfold visitElementRefDecl
        dsimp only
        rw [hdt]
        rfl
      | true =>
        unfold visitElementRefDecl
        dsimp only
        rw [hdt, hp]
        rfl

/-- Claim C9: the checker aborts with the fatal unreachable-state assertion
exactly on an ArgDecl fed as a statement-level declaration (so when the host
driver never feeds one, the fatal branch is unreachable), and the fatal
outcome carries no recoverable diagnostic. -/
theorem claim_C9 (svc : Services) (d : Decl) :
    typeCheckDecl svc d = CheckOutcome.fatal ↔ d = Decl.argD := by
  cases d <;> simp [typeCheckDecl]

/-- Claim C10: when the expression-checking service succeeds on a
ValueDecl's initializer, the declaration's type is overwritten with the
initializer's resulting type unconditionally — also when the declared type
was already resolved (not the dependent placeholder) and was passed as the
expected type. -/
theorem claim_C10 (svc : Services) (vd : ValueDecl) (e : Expr)
    (hres : (svc.validateType vd).1 = false)
    (hinit : vd.init = some e)
    (hok : (svc.typeCheckExpression e
        (if ((svc.validateType vd).2).isDependent then none
         else some (svc.validateType vd).2)).1 = false) :
    (visitValueDecl svc vd).2.1.type =
      ((svc.typeCheckExpression e
        (if ((svc.validateType vd).2).isDependent then none
         else some (svc.validateType vd).2)).2).ty := by
  unfold visitValueDecl
  dsimp only
  simp only [hres, Bool.false_eq_true, if_false]
  split
  · next heq => rw [hinit] at heq; cases heq
  next e' heq =>
  rw [hinit] at heq
  injection heq with he
  subst he
  simp only [hok, Bool.not_false, if_true]
  exact validateAttributes_type _

/-- Witness for claim C10 at the concrete declaration `c7vd`, whose declared
type `base 0` is already resolved, under a service whose expression checking
succeeds with resulting type `base 1`: the declared type is overwritten. -/
theorem claim_C10_witness :
    (svcExprBase1.validateType c7vd).1 = false
    ∧ c7vd.init = some ⟨0, .base 0⟩
    ∧ (svcExprBase1.typeCheckExpression ⟨0, .base 0⟩
        (if ((svcExprBase1.validateType c7vd).2).isDependent then none
         else some (svcExprBase1.validateType c7vd).2)).1 = false
    ∧ (visitValueDecl svcExprBase1 c7vd).2.1.type =
        ((svcExprBase1.typeCheckExpression ⟨0, .base 0⟩
          (if ((svcExprBase1.validateType c7vd).2).isDependent then none
           else some (svcExprBase1.validateType c7vd).2)).2).ty :=
  ⟨rfl, rfl, rfl, claim_C10 svcExprBase1 c7vd ⟨0, .base 0⟩ rfl rfl rfl⟩

end Swift
